import Mathlib

/-!
Verification of the command-state reconciliation and command-translation
layer of the `lovense_api` integration, shallowly embedded from
`custom_components/lovense_api/coordinator.py`.

The embedding models:
* the per-toy settings record kept in `self.toy_settings` (coordinator.py
  lines 252-258) and the merge loop of `send_unified_command` (260-266);
* the command translation performed by `send_unified_command` (270-306);
* the transport step `send_command_local` (157-195) and the inventory
  fetch `_get_toys` / `_get_toys_local` / `_get_toys_server` (105-155),
  with the network modelled as an explicit outcome parameter;
* the pairing lifecycle: `_async_update_data` (61-74) and
  `update_device_info` (197-214).

Python dict values of unknown shape are modelled with typed optional
fields; Python `None` becomes `Option.none`; dict truthiness (used by
`if not self.device_info`) is modelled by an explicit emptiness check.
-/

namespace Lovense

/-- One entry of `self.toy_settings[toy_id]` (coordinator.py 252-258):
vibration level, optional absolute position, optional stroke range
(stored as the already-rendered string `"low-high"` passed by callers),
thrusting level. -/
structure ToySettings where
  vibration : Int
  position : Option Int
  stroke_range : Option String
  thrusting : Int
deriving Repr, DecidableEq

/-- The default-zero record installed on first reference to an unseen
toy id (coordinator.py 253-258). -/
def defaultSettings : ToySettings :=
  { vibration := 0, position := none, stroke_range := none, thrusting := 0 }

/-- The `**settings` kwargs of `send_unified_command`: each field is
`none` when the key is absent from the call, `some none` when the key is
passed with Python `None`, and `some (some v)` when passed with value
`v`. -/
structure PartialSettings where
  vibration : Option (Option Int) := none
  position : Option (Option Int) := none
  stroke_range : Option (Option String) := none
  thrusting : Option (Option Int) := none
deriving Repr, DecidableEq

/-- The empty kwargs dict: no key present. -/
def emptyPartial : PartialSettings := {}

/-- Merge of one scalar field (`vibration` / `thrusting`) per the loop at
coordinator.py 260-266: a non-`None` value overwrites, a `None` value is
ignored (only `stroke_range` has a clear branch), an absent key leaves
the stored value untouched. -/
def updScalar (stored : Int) (u : Option (Option Int)) : Int :=
  match u with
  | some (some v) => v
  | _ => stored

/-- Merge of the optional `position` field: a non-`None` value
overwrites; `None` or an absent key leaves the stored value untouched
(there is no clear branch for `position` in the loop at 260-266). -/
def updOpt (stored : Option Int) (u : Option (Option Int)) : Option Int :=
  match u with
  | some (some v) => some v
  | _ => stored

/-- Merge of the `stroke_range` field: the key passed with `None`
explicitly clears the stored value (coordinator.py 262-264); a
non-`None` value overwrites; an absent key leaves it untouched. -/
def updStroke (stored : Option String) (u : Option (Option String)) :
    Option String :=
  match u with
  | none => stored
  | some none => none
  | some (some v) => some v

/-- The whole merge loop of `send_unified_command` (260-266) applied to
one stored record. -/
def applySettings (s : ToySettings) (p : PartialSettings) : ToySettings :=
  { vibration := updScalar s.vibration p.vibration
    position := updOpt s.position p.position
    stroke_range := updStroke s.stroke_range p.stroke_range
    thrusting := updScalar s.thrusting p.thrusting }

/-- The `self.toy_settings` dict, as an association list keyed by toy id. -/
abbrev ToyStore := List (String × ToySettings)

/-- Dict lookup `self.toy_settings[toy_id]`. -/
def lookupToy (store : ToyStore) (id : String) : Option ToySettings :=
  (store.find? (fun e => e.1 == id)).map Prod.snd

/-- Dict assignment `self.toy_settings[toy_id] = s`. -/
def setToy (store : ToyStore) (id : String) (s : ToySettings) : ToyStore :=
  match store with
  | [] => [(id, s)]
  | e :: rest => if e.1 == id then (id, s) :: rest else e :: setToy rest id s

/-- The record used for `toy_id`, after the lazy initialization at
coordinator.py 252-258. -/
def getOrInit (store : ToyStore) (id : String) : ToySettings :=
  (lookupToy store id).getD defaultSettings

/-- The store after `send_unified_command`'s initialize-then-merge
prefix (249-266). -/
def mergeStore (store : ToyStore) (id : String) (p : PartialSettings) :
    ToyStore :=
  setToy store id (applySettings (getOrInit store id) p)

/-- The `current` record read back at coordinator.py 268 after the merge. -/
def mergedState (store : ToyStore) (id : String) (p : PartialSettings) :
    ToySettings :=
  applySettings (getOrInit store id) p

/-- A vendor command payload: `Position` with a string value, or
`Function` with an action string and a duration (coordinator.py 271-306;
`toy` names the target accessory). -/
inductive VendorCommand where
  | position (value : String) (toy : String)
  | function (action : String) (timeSec : Int) (toy : String)
deriving Repr, DecidableEq

/-- The `actions` list built at coordinator.py 280-289: `Vibrate` when
vibration > 0, then `Stroke` when a stroke range is stored, then
`Thrusting` when thrusting > 0. -/
def actionList (s : ToySettings) : List String :=
  (if s.vibration > 0 then ["Vibrate:" ++ toString s.vibration] else []) ++
  (match s.stroke_range with
   | some r => ["Stroke:" ++ r]
   | none => []) ++
  (if s.thrusting > 0 then ["Thrusting:" ++ toString s.thrusting] else [])

/-- The command-selection logic of `send_unified_command` (270-306):
position takes priority; otherwise a combined `Function` command when
anything is active (`none` models the dead `if actions:` guard at 291
letting no command through); otherwise `Function` `Stop`. -/
def translateCmd (toy_id : String) (s : ToySettings) : Option VendorCommand :=
  match s.position with
  | some p => some (.position (toString p) toy_id)
  | none =>
    if s.vibration > 0 ∨ s.stroke_range.isSome = true ∨ s.thrusting > 0 then
      if (actionList s).isEmpty then none
      else some (.function (String.intercalate "," (actionList s)) 0 toy_id)
    else some (.function "Stop" 0 toy_id)

/-- One toy descriptor from the callback payload's `toys` mapping
(views/callback shape: name, toyType, status). -/
structure ToyDesc where
  name : String
  toyType : String
  status : Int
deriving Repr, DecidableEq

/-- The `toys` mapping of a callback payload / `self.toy_data`. -/
abbrev ToyData := List (String × ToyDesc)

/-- The `device_info` dict received by `update_device_info` and stored as
`self.device_info`: each field is `none` when the key is absent;
`extraKeys` records any further keys so that Python dict truthiness
(`if not self.device_info`) can be modelled faithfully. -/
structure CallbackPayload where
  uid : Option String := none
  domain : Option String := none
  httpsPort : Option Int := none
  toys : Option ToyData := none
  extraKeys : List String := []
deriving Repr, DecidableEq

/-- Python falsiness of the `device_info` dict: it is the empty dict. -/
def CallbackPayload.isEmptyDict (p : CallbackPayload) : Bool :=
  p.uid.isNone && p.domain.isNone && p.httpsPort.isNone && p.toys.isNone &&
    p.extraKeys.isEmpty

/-- Python truthiness of `device_info.get("domain")`: present and
non-empty. -/
def truthyOptStr (o : Option String) : Bool :=
  match o with
  | none => false
  | some s => !(s == "")

/-- Python truthiness of `device_info.get("httpsPort")`: present and
non-zero. -/
def truthyOptInt (o : Option Int) : Bool :=
  match o with
  | none => false
  | some n => !(n == 0)

/-- The result dict returned by `_async_update_data` (lines 67 and 71). -/
structure RefreshResult where
  status : String
  toys : ToyData
deriving Repr, DecidableEq

/-- The coordinator state the claims depend on: `self.device_info`,
`self.toy_data`, `self.toy_settings`, and `self.data` (the last refresh
result kept by the base `DataUpdateCoordinator`). -/
structure Coordinator where
  device_info : CallbackPayload
  toy_data : ToyData
  toy_settings : ToyStore
  data : Option RefreshResult
deriving Repr, DecidableEq

/-- A freshly constructed coordinator (lines 47-49): empty
`device_info`, no toy data, no per-toy settings, no refresh result yet. -/
def initialCoordinator : Coordinator :=
  { device_info := {}, toy_data := [], toy_settings := [], data := none }

/-- The outcome of one HTTP exchange against the local endpoint:
either an `aiohttp.ClientError` is raised, or a response arrives whose
parsed body carries a `code` field and (for `GetToys`) a `data` field. -/
inductive HttpOutcome where
  | clientError
  | response (code : Int) (toys : ToyData)
deriving Repr, DecidableEq

/-- The `UpdateFailed` errors `send_command_local` can raise
(coordinator.py 163-195). -/
inductive CmdError where
  | noDeviceConnection
  | noLocalConnection
  | commandFailed (code : Int)
  | httpError
deriving Repr, DecidableEq

/-- `domain and https_port` truthiness check used at lines 118 and 169. -/
def hasLocalEndpoint (c : Coordinator) : Bool :=
  truthyOptStr c.device_info.domain && truthyOptInt c.device_info.httpsPort

/-- `send_command_local` (157-195): raises before any request when
`device_info` is empty or no local endpoint is known; otherwise issues
exactly one HTTP request, succeeding only on body code 200. The second
component lists the requests actually placed on the wire. -/
def send_command_local (c : Coordinator) (cmd : VendorCommand)
    (outcome : HttpOutcome) : Except CmdError Unit × List VendorCommand :=
  if c.device_info.isEmptyDict then (.error .noDeviceConnection, [])
  else if !hasLocalEndpoint c then (.error .noLocalConnection, [])
  else
    match outcome with
    | .clientError => (.error .httpError, [cmd])
    | .response code _ =>
      if code == 200 then (.ok (), [cmd])
      else (.error (.commandFailed code), [cmd])

/-- `send_unified_command` (247-306): lazily initialize and merge the
per-toy settings, then translate the merged record and send the chosen
command. Returns the new coordinator state, the call's result, and the
HTTP requests issued. -/
def send_unified_command (c : Coordinator) (toy_id : String)
    (p : PartialSettings) (outcome : HttpOutcome) :
    Coordinator × Except CmdError Unit × List VendorCommand :=
  let c2 : Coordinator :=
    { c with toy_settings := mergeStore c.toy_settings toy_id p }
  match translateCmd toy_id (mergedState c.toy_settings toy_id p) with
  | some cmd => (c2, send_command_local c2 cmd outcome)
  | none => (c2, .ok (), [])

/-- `_get_toys_server` (150-155): the relay-side inventory fetch is a
stub returning the empty dict. The Boolean flag records that the relay
transport was invoked. -/
def get_toys_server : ToyData × Bool := ([], true)

/-- `_get_toys_local` (123-148): a transport-level failure falls back to
the relay fetch; a response with body code 200 yields its data; any
other body code yields the empty dict without fallback. -/
def get_toys_local (outcome : HttpOutcome) : ToyData × Bool :=
  match outcome with
  | .clientError => get_toys_server
  | .response code d => if code == 200 then (d, false) else ([], false)

/-- `_get_toys` (105-121): prefer the toy data delivered by the pairing
callback; otherwise fetch from the local endpoint when one is known,
else from the relay stub. -/
def get_toys (c : Coordinator) (outcome : HttpOutcome) : ToyData × Bool :=
  if c.device_info.isEmptyDict then ([], false)
  else if !c.toy_data.isEmpty then (c.toy_data, false)
  else if hasLocalEndpoint c then get_toys_local outcome
  else get_toys_server

/-- Which branch a refresh tick took: a QR-pairing request (line 66) or
an accessory-inventory fetch (line 70). -/
inductive RefreshStep where
  | qrRequest
  | toyFetch
deriving Repr, DecidableEq

/-- `_async_update_data` (61-74): with empty `device_info` it requests a
QR code (success yields the `awaiting_pairing` result, failure raises
`UpdateFailed` and leaves `self.data` untouched); otherwise it fetches
the inventory and yields the `connected` result. `qrOk` is the outcome
of the QR relay exchange. -/
def async_update_data (c : Coordinator) (qrOk : Bool)
    (outcome : HttpOutcome) :
    Coordinator × Except String RefreshResult × RefreshStep :=
  if c.device_info.isEmptyDict then
    if qrOk then
      let r : RefreshResult := { status := "awaiting_pairing", toys := [] }
      ({ c with data := some r }, .ok r, .qrRequest)
    else (c, .error "UpdateFailed", .qrRequest)
  else
    let r : RefreshResult :=
      { status := "connected", toys := (get_toys c outcome).1 }
    ({ c with data := some r }, .ok r, .toyFetch)

/-- `update_device_info` (197-214), pure part: replace `device_info`
wholesale with the payload and replace `toy_data` with the payload's
`toys` mapping (empty default). -/
def update_device_info (c : Coordinator) (payload : CallbackPayload) :
    Coordinator :=
  { c with device_info := payload, toy_data := payload.toys.getD [] }

/-- The spec's pairing states, as the code realizes them: the code
branches on `if not self.device_info`, so `PAIRED` is exactly
"`device_info` is a non-empty dict". -/
inductive PairState where
  | unpaired
  | paired
deriving Repr, DecidableEq

/-- The pairing state implicit in `_async_update_data`'s branch. -/
def pairState (c : Coordinator) : PairState :=
  if c.device_info.isEmptyDict then .unpaired else .paired

/-- A sequence of refresh ticks, one outcome pair per tick; returns the
final coordinator and the branch each tick took. -/
def refreshSeq (c : Coordinator) (l : List (Bool × HttpOutcome)) :
    Coordinator × List RefreshStep :=
  match l with
  | [] => (c, [])
  | (q, o) :: rest =>
    let step := (async_update_data c q o).2.2
    let c2 := (async_update_data c q o).1
    let res := refreshSeq c2 rest
    (res.1, step :: res.2)

/-! ### Helper lemmas -/

/-- Dict lookup after dict assignment at the same key. -/
theorem lookupToy_setToy (store : ToyStore) (id : String) (s : ToySettings) :
    lookupToy (setToy store id s) id = some s := by
  induction store with
  | nil => simp [setToy, lookupToy, List.find?]
  | cons e rest ih =>
    by_cases h : (e.1 == id) = true
    · simp [setToy, h, lookupToy, List.find?]
    · simp only [setToy, h, if_false, Bool.false_eq_true]
      simpa [lookupToy, List.find?, h] using ih

/-- Merging the empty kwargs dict changes nothing. -/
theorem applySettings_empty (s : ToySettings) :
    applySettings s emptyPartial = s := rfl

theorem updScalar_idem (a : Int) (u : Option (Option Int)) :
    updScalar (updScalar a u) u = updScalar a u := by
  cases u with
  | none => rfl
  | some v => cases v <;> rfl

theorem updOpt_idem (a : Option Int) (u : Option (Option Int)) :
    updOpt (updOpt a u) u = updOpt a u := by
  cases u with
  | none => rfl
  | some v => cases v <;> rfl

theorem updStroke_idem (a : Option String) (u : Option (Option String)) :
    updStroke (updStroke a u) u = updStroke a u := by
  cases u with
  | none => rfl
  | some v => cases v <;> rfl

/-- The merge loop is idempotent. -/
theorem applySettings_idem (s : ToySettings) (p : PartialSettings) :
    applySettings (applySettings s p) p = applySettings s p := by
  simp [applySettings, updScalar_idem, updOpt_idem, updStroke_idem]

/-- Under the `elif` guard at coordinator.py 278 the built `actions`
list is never empty, so the `if actions:` guard at 291 is dead code. -/
theorem actionList_ne_nil (s : ToySettings)
    (h : s.vibration > 0 ∨ s.stroke_range.isSome = true ∨ s.thrusting > 0) :
    actionList s ≠ [] := by
  unfold actionList
  rcases h with h | h | h
  · simp [h]
  · rcases Option.isSome_iff_exists.mp h with ⟨r, hr⟩
    simp [hr]
  · simp [h]

/-- `send_unified_command` always selects a command to send. -/
theorem translateCmd_isSome (id : String) (s : ToySettings) :
    (translateCmd id s).isSome = true := by
  unfold translateCmd
  cases hp : s.position with
  | some p => rfl
  | none =>
    by_cases h : s.vibration > 0 ∨ s.stroke_range.isSome = true ∨ s.thrusting > 0
    · rw [if_pos h]
      cases hA : actionList s with
      | nil => exact absurd hA (actionList_ne_nil s h)
      | cons a t => simp [hA]
    · rw [if_neg h]
      rfl

theorem stroke_ne_vibrate (a b : String) :
    ("Stroke:" ++ a) ≠ ("Vibrate:" ++ b) := by
  intro h
  have h2 := congrArg String.data h
  rw [String.data_append, String.data_append] at h2
  have ha : "Stroke:".data = 'S' :: "troke:".data := rfl
  have hb : "Vibrate:".data = 'V' :: "ibrate:".data := rfl
  rw [ha, hb] at h2
  simp at h2

theorem stroke_ne_thrusting (a b : String) :
    ("Stroke:" ++ a) ≠ ("Thrusting:" ++ b) := by
  intro h
  have h2 := congrArg String.data h
  rw [String.data_append, String.data_append] at h2
  have ha : "Stroke:".data = 'S' :: "troke:".data := rfl
  have hb : "Thrusting:".data = 'T' :: "hrusting:".data := rfl
  rw [ha, hb] at h2
  simp at h2

/-- With no stored stroke range, no `Stroke:` action is ever built. -/
theorem stroke_not_mem_actionList (s : ToySettings)
    (hs : s.stroke_range = none) (r : String) :
    ("Stroke:" ++ r) ∉ actionList s := by
  unfold actionList
  rw [hs]
  intro hmem
  rw [List.mem_append, List.mem_append] at hmem
  rcases hmem with (h | h) | h
  · split at h
    · rw [List.mem_singleton] at h
      exact stroke_ne_vibrate r _ h
    · simp at h
  · simp at h
  · split at h
    · rw [List.mem_singleton] at h
      exact stroke_ne_thrusting r _ h
    · simp at h

/-- A refresh tick never touches `device_info` (endpoint details). -/
theorem async_update_data_device_info (c : Coordinator) (q : Bool)
    (o : HttpOutcome) :
    (async_update_data c q o).1.device_info = c.device_info := by
  unfold async_update_data
  split
  · split <;> rfl
  · rfl

/-- With non-empty `device_info`, a refresh tick takes the inventory
branch. -/
theorem async_update_data_step_of_nonempty (c : Coordinator) (q : Bool)
    (o : HttpOutcome) (h : c.device_info.isEmptyDict = false) :
    (async_update_data c q o).2.2 = .toyFetch := by
  unfold async_update_data
  simp [h]

/-- `pairState` unfolded to the code's branch condition. -/
theorem pairState_unpaired_iff (c : Coordinator) :
    pairState c = .unpaired ↔ c.device_info.isEmptyDict = true := by
  unfold pairState
  split <;> simp_all

/-! ### Spec-side definitions (for refinement claims only) -/

/-- The `"low-high"` rendering in which every caller passes a stroke
range (number.py 212, 300; light.py 268, 380). -/
def renderRange (low high : Int) : String :=
  toString low ++ "-" ++ toString high

/-- Modelled from the spec (spec.md section 4.1), for comparison with
the code's `actionList`/`translateCmd`: the comma-joined list of
present, non-zero sub-actions in the fixed order
[Vibrate, Stroke, Thrusting], each rendered as `"<Name>:<value>"`,
stroke as `"Stroke:<low>-<high>"`. -/
def specFunctionAction (v : Int) (sr : Option (Int × Int)) (th : Int) :
    String :=
  String.intercalate "," (
    (if v > 0 then ["Vibrate:" ++ toString v] else []) ++
    (match sr with
     | some q => ["Stroke:" ++ toString q.1 ++ "-" ++ toString q.2]
     | none => []) ++
    (if th > 0 then ["Thrusting:" ++ toString th] else []))

/-! ### Claim theorems -/

/-- C1. Priority law: for every stored desired state in which position
is present, the translated command is a `Position` command whose value
is the decimal string of the integer position, regardless of the stored
vibration, stroke range and thrusting values. -/
theorem C1_position_priority (id : String) (v th p : Int)
    (sr : Option String) :
    translateCmd id
        { vibration := v, position := some p, stroke_range := sr,
          thrusting := th } =
      some (VendorCommand.position (toString p) id) := rfl

/-- C2. With position absent: if any of vibration > 0, stroke range
present, thrusting > 0 holds, the translated command is a `Function`
command whose action string is the comma-joined list of the present,
non-zero sub-actions in the fixed order [Vibrate, Stroke, Thrusting],
each `"<Name>:<value>"` with stroke as `"Stroke:<low>-<high>"`, with
`timeSec` 0; otherwise it is a `Function` command with action `"Stop"`
(and `timeSec` 0). -/
theorem C2_function_and_stop (id : String) (v th : Int)
    (sr : Option (Int × Int)) :
    translateCmd id
        { vibration := v, position := none,
          stroke_range := sr.map (fun q => renderRange q.1 q.2),
          thrusting := th } =
      some (if v > 0 ∨ sr.isSome = true ∨ th > 0 then
              VendorCommand.function (specFunctionAction v sr th) 0 id
            else VendorCommand.function "Stop" 0 id) := by
  cases sr with
  | none =>
    by_cases hv : v > 0 <;> by_cases hth : th > 0 <;>
      simp [translateCmd, actionList, specFunctionAction, hv, hth]
  | some q =>
    by_cases hv : v > 0 <;> by_cases hth : th > 0 <;>
      simp [translateCmd, actionList, specFunctionAction, renderRange,
        hv, hth, String.append_assoc]

/-- C8. Merge stability: merging the empty partial update is a no-op
(both on a stored record and on the record a lazy initialization
produces), and applying the same partial update twice yields the same
desired state as applying it once. -/
theorem C8_merge_stability :
    (∀ s : ToySettings, applySettings s emptyPartial = s) ∧
    (∀ (store : ToyStore) (id : String),
       mergedState store id emptyPartial = getOrInit store id) ∧
    (∀ (s : ToySettings) (p : PartialSettings),
       applySettings (applySettings s p) p = applySettings s p) :=
  ⟨applySettings_empty, fun _ _ => applySettings_empty _,
   applySettings_idem⟩

/-- C3. Merge semantics of `send_unified_command`'s initialize-and-merge
prefix: the lazily-installed record is default-zero; a first reference
to an unseen id initializes it and merges into it; `stroke_range`
passed as `None` clears the stored value, after which no `Stroke:`
action is ever built even while vibration or thrusting is active; any
field passed with a non-`None` value overwrites the stored value; a
field absent from the update is left untouched. -/
theorem C3_merge_semantics :
    (defaultSettings =
      { vibration := 0, position := none, stroke_range := none,
        thrusting := 0 }) ∧
    (∀ (store : ToyStore) (id : String) (p : PartialSettings),
       lookupToy store id = none →
       lookupToy (mergeStore store id p) id =
         some (applySettings defaultSettings p)) ∧
    (∀ (s : ToySettings) (p : PartialSettings),
       p.stroke_range = some none →
       (applySettings s p).stroke_range = none) ∧
    (∀ (s : ToySettings) (p : PartialSettings) (r : String),
       p.stroke_range = some none →
       ("Stroke:" ++ r) ∉ actionList (applySettings s p)) ∧
    (∀ (s : ToySettings) (p : PartialSettings) (v : Int),
       p.vibration = some (some v) → (applySettings s p).vibration = v) ∧
    (∀ (s : ToySettings) (p : PartialSettings) (v : Int),
       p.position = some (some v) →
       (applySettings s p).position = some v) ∧
    (∀ (s : ToySettings) (p : PartialSettings) (r : String),
       p.stroke_range = some (some r) →
       (applySettings s p).stroke_range = some r) ∧
    (∀ (s : ToySettings) (p : PartialSettings) (v : Int),
       p.thrusting = some (some v) → (applySettings s p).thrusting = v) ∧
    (∀ (s : ToySettings) (p : PartialSettings),
       p.vibration = none →
       (applySettings s p).vibration = s.vibration) ∧
    (∀ (s : ToySettings) (p : PartialSettings),
       p.position = none → (applySettings s p).position = s.position) ∧
    (∀ (s : ToySettings) (p : PartialSettings),
       p.stroke_range = none →
       (applySettings s p).stroke_range = s.stroke_range) ∧
    (∀ (s : ToySettings) (p : PartialSettings),
       p.thrusting = none →
       (applySettings s p).thrusting = s.thrusting) := by
  refine ⟨rfl, ?_, ?_, ?_, ?_, ?_, ?_, ?_, ?_, ?_, ?_, ?_⟩
  · intro store id p hnone
    unfold mergeStore getOrInit
    rw [hnone]
    exact lookupToy_setToy store id _
  · intro s p h
    simp [applySettings, updStroke, h]
  · intro s p r h
    exact stroke_not_mem_actionList _ (by simp [applySettings, updStroke, h]) r
  · intro s p v h
    simp [applySettings, updScalar, h]
  · intro s p v h
    simp [applySettings, updOpt, h]
  · intro s p r h
    simp [applySettings, updStroke, h]
  · intro s p v h
    simp [applySettings, updScalar, h]
  · intro s p h
    simp [applySettings, updScalar, h]
  · intro s p h
    simp [applySettings, updOpt, h]
  · intro s p h
    simp [applySettings, updStroke, h]
  · intro s p h
    simp [applySettings, updScalar, h]

/-- Concrete instance of C3: unseen id initialized and merged; an
explicit stroke-range clear leaves no `Stroke:` action while vibration
and thrusting stay active; non-null overwrite; absent field untouched. -/
theorem C3_merge_semantics_witness :
    lookupToy
        (mergeStore [] "t1"
          { vibration := some (some 5), stroke_range := some none }) "t1" =
      some (applySettings defaultSettings
        { vibration := some (some 5), stroke_range := some none }) ∧
    ("Stroke:" ++ "10-80") ∉
      actionList (applySettings
        { vibration := 3, position := none, stroke_range := some "10-80",
          thrusting := 7 }
        { stroke_range := some none }) ∧
    (applySettings
        { vibration := 3, position := none, stroke_range := some "10-80",
          thrusting := 7 }
        { vibration := some (some 5) }).vibration = 5 ∧
    (applySettings
        { vibration := 3, position := none, stroke_range := some "10-80",
          thrusting := 7 }
        { vibration := some (some 5) }).thrusting = 7 :=
  ⟨C3_merge_semantics.2.1 [] "t1" _ rfl,
   C3_merge_semantics.2.2.2.1 _ _ "10-80" rfl,
   C3_merge_semantics.2.2.2.2.1 _ _ 5 rfl,
   C3_merge_semantics.2.2.2.2.2.2.2.2.2.2.2 _
     { vibration := some (some 5) } rfl⟩

/-- The Scenario-B pairing payload (spec.md section 8). -/
def payloadB : CallbackPayload :=
  { uid := some "u1", domain := some "1.2.3.4", httpsPort := some 443,
    toys := some [("t1", { name := "Max", toyType := "max", status := 1 })] }

/-- A coordinator that has received the Scenario-B pairing callback. -/
def pairedCoordinator : Coordinator :=
  update_device_info initialCoordinator payloadB

/-- C5. Pairing state machine: a pairing callback whose payload carries
both `domain` and `httpsPort` always moves the coordinator to `PAIRED`
and replaces the inventory wholesale with the payload's toys; a refresh
tick never changes `device_info` (so never sets endpoint details), and
from `UNPAIRED` it only issues a QR-pairing request and stays
`UNPAIRED`. -/
theorem C5_pairing_machine :
    (∀ (c : Coordinator) (payload : CallbackPayload) (d : String)
        (prt : Int),
       payload.domain = some d → payload.httpsPort = some prt →
       pairState (update_device_info c payload) = .paired ∧
       (update_device_info c payload).device_info = payload ∧
       (update_device_info c payload).toy_data = payload.toys.getD []) ∧
    (∀ (c : Coordinator) (q : Bool) (o : HttpOutcome),
       (async_update_data c q o).1.device_info = c.device_info ∧
       (pairState c = .unpaired →
         (async_update_data c q o).2.2 = .qrRequest ∧
         pairState (async_update_data c q o).1 = .unpaired)) := by
  constructor
  · intro c payload d prt hd hp
    refine ⟨?_, rfl, rfl⟩
    simp [pairState, update_device_info, CallbackPayload.isEmptyDict, hd]
  · intro c q o
    refine ⟨async_update_data_device_info c q o, ?_⟩
    intro hun
    have hE : c.device_info.isEmptyDict = true :=
      (pairState_unpaired_iff c).mp hun
    constructor
    · unfold async_update_data
      simp only [hE, if_true]
      cases q <;> rfl
    · rw [pairState_unpaired_iff, async_update_data_device_info]
      exact hE

/-- Concrete instance of C5 at the Scenario-B payload. -/
theorem C5_pairing_machine_witness :
    pairState (update_device_info initialCoordinator payloadB) =
      PairState.paired ∧
    (update_device_info initialCoordinator payloadB).toy_data =
      payloadB.toys.getD [] ∧
    (async_update_data initialCoordinator true .clientError).2.2 =
      RefreshStep.qrRequest :=
  ⟨(C5_pairing_machine.1 initialCoordinator payloadB "1.2.3.4" 443 rfl
      rfl).1,
   (C5_pairing_machine.1 initialCoordinator payloadB "1.2.3.4" 443 rfl
      rfl).2.2,
   ((C5_pairing_machine.2 initialCoordinator true .clientError).2
      (by decide)).1⟩

/-- C6. For a freshly constructed coordinator (empty `device_info`,
`UNPAIRED`), every unified-command call fails with the
"No device connection" error and issues no HTTP request, whatever the
partial settings and whatever the network would have answered. -/
theorem C6_unpaired_apply_fails (id : String) (p : PartialSettings)
    (o : HttpOutcome) :
    (send_unified_command initialCoordinator id p o).2.1 =
      .error .noDeviceConnection ∧
    (send_unified_command initialCoordinator id p o).2.2 = [] := by
  have hs := translateCmd_isSome id
    (mergedState initialCoordinator.toy_settings id p)
  unfold send_unified_command
  cases htr : translateCmd id
      (mergedState initialCoordinator.toy_settings id p) with
  | none =>
    rw [htr] at hs
    exact absurd hs (by simp)
  | some cmd =>
    simp [send_command_local, initialCoordinator,
      CallbackPayload.isEmptyDict]

/-- C7. Fallback asymmetry: a transport-level failure of the local
inventory fetch falls back to the relay transport, whose stubbed fetch
returns the empty inventory; a transport-level failure of a command
send is surfaced to the caller as an error (no fallback). -/
theorem C7_fallback_asymmetry :
    (get_toys_local .clientError = get_toys_server ∧
     get_toys_local .clientError = ([], true)) ∧
    (∀ (c : Coordinator) (cmd : VendorCommand),
       c.device_info.isEmptyDict = false → hasLocalEndpoint c = true →
       (send_command_local c cmd .clientError).1 = .error .httpError) := by
  refine ⟨⟨rfl, rfl⟩, ?_⟩
  intro c cmd hNE hEnd
  simp [send_command_local, hNE, hEnd]

/-- Concrete instance of C7 at a paired coordinator. -/
theorem C7_fallback_asymmetry_witness :
    (send_command_local pairedCoordinator
        (VendorCommand.function "Stop" 0 "t1") .clientError).1 =
      .error .httpError :=
  C7_fallback_asymmetry.2 pairedCoordinator
    (VendorCommand.function "Stop" 0 "t1") (by decide) (by decide)

/-- C9. `send_unified_command` merges the partial update into the store
before any transport attempt and the merged values are retained
whatever the call's outcome (including the no-endpoint failure); when a
local endpoint is known, the single request placed on the wire is the
translation of the freshly merged state. -/
theorem C9_merge_before_send (c : Coordinator) (id : String)
    (p : PartialSettings) (o : HttpOutcome) :
    (send_unified_command c id p o).1.toy_settings =
      mergeStore c.toy_settings id p ∧
    (send_unified_command c id p o).1.device_info = c.device_info ∧
    (∀ cmd : VendorCommand,
       translateCmd id (mergedState c.toy_settings id p) = some cmd →
       c.device_info.isEmptyDict = false → hasLocalEndpoint c = true →
       (send_unified_command c id p o).2.2 = [cmd]) := by
  refine ⟨?_, ?_, ?_⟩
  · unfold send_unified_command
    cases translateCmd id (mergedState c.toy_settings id p) <;> rfl
  · unfold send_unified_command
    cases translateCmd id (mergedState c.toy_settings id p) <;> rfl
  · intro cmd htr hNE hEnd
    unfold send_unified_command
    rw [htr]
    have hNE2 : ({ c with toy_settings := mergeStore c.toy_settings id p }
        : Coordinator).device_info.isEmptyDict = false := hNE
    have hEnd2 : hasLocalEndpoint
        { c with toy_settings := mergeStore c.toy_settings id p } = true :=
      hEnd
    cases o with
    | clientError => simp [send_command_local, hNE2, hEnd2]
    | response code d =>
      by_cases hc : (code == 200) = true <;>
        simp [send_command_local, hNE2, hEnd2, hc]

/-- Concrete instance of C9: a failed send (no such luck: HTTP error)
still retains the merged vibration, and the attempted request is the
translation of the merged state. -/
theorem C9_merge_before_send_witness :
    (send_unified_command pairedCoordinator "t1"
        { vibration := some (some 12) } .clientError).1.toy_settings =
      mergeStore pairedCoordinator.toy_settings "t1"
        { vibration := some (some 12) } ∧
    (send_unified_command pairedCoordinator "t1"
        { vibration := some (some 12) } .clientError).2.2 =
      [VendorCommand.function "Vibrate:12" 0 "t1"] :=
  ⟨(C9_merge_before_send pairedCoordinator "t1"
      { vibration := some (some 12) } .clientError).1,
   (C9_merge_before_send pairedCoordinator "t1"
      { vibration := some (some 12) } .clientError).2.2
     (VendorCommand.function "Vibrate:12" 0 "t1") rfl (by decide)
     (by decide)⟩

/-- C10. After `update_device_info` with any non-empty payload —
whether or not it carries `domain` and `httpsPort` — `device_info` is
replaced wholesale with the payload, the coordinator counts as paired,
and every subsequent refresh tick takes the inventory-fetch branch
rather than issuing a QR-pairing request. -/
theorem C10_nonempty_payload_pairs (c : Coordinator)
    (payload : CallbackPayload) (h : payload.isEmptyDict = false) :
    (update_device_info c payload).device_info = payload ∧
    pairState (update_device_info c payload) = .paired ∧
    (∀ (l : List (Bool × HttpOutcome)) (st : RefreshStep),
       st ∈ (refreshSeq (update_device_info c payload) l).2 →
       st = .toyFetch) := by
  refine ⟨rfl, by simp [pairState, update_device_info, h], ?_⟩
  have key : ∀ (l : List (Bool × HttpOutcome)) (c2 : Coordinator),
      c2.device_info.isEmptyDict = false →
      ∀ st ∈ (refreshSeq c2 l).2, st = RefreshStep.toyFetch := by
    intro l
    induction l with
    | nil =>
      intro c2 _ st hst
      simp [refreshSeq] at hst
    | cons x rest ih =>
      intro c2 h2 st hst
      obtain ⟨q, o⟩ := x
      simp only [refreshSeq, List.mem_cons] at hst
      rcases hst with hst | hst
      · rw [hst]
        exact async_update_data_step_of_nonempty c2 q o h2
      · exact ih (async_update_data c2 q o).1
          (by rw [async_update_data_device_info]; exact h2) st hst
  intro l st hst
  exact key l (update_device_info c payload)
    (by simpa [update_device_info] using h) st hst

/-- A non-empty callback payload with neither `domain` nor `httpsPort`. -/
def payloadUidOnly : CallbackPayload := { uid := some "u1" }

/-- Concrete instance of C10 at a payload carrying only `uid`. -/
theorem C10_nonempty_payload_pairs_witness :
    (update_device_info initialCoordinator payloadUidOnly).device_info =
      payloadUidOnly ∧
    pairState (update_device_info initialCoordinator payloadUidOnly) =
      PairState.paired ∧
    RefreshStep.toyFetch = RefreshStep.toyFetch :=
  ⟨(C10_nonempty_payload_pairs initialCoordinator payloadUidOnly
      (by decide)).1,
   (C10_nonempty_payload_pairs initialCoordinator payloadUidOnly
      (by decide)).2.1,
   (C10_nonempty_payload_pairs initialCoordinator payloadUidOnly
      (by decide)).2.2 [(true, .clientError)] RefreshStep.toyFetch
     (by simp [refreshSeq, async_update_data, payloadUidOnly,
       update_device_info, CallbackPayload.isEmptyDict])⟩

/-! ### Scenario D (claim C4) -/

/-- Scenario D, step 1: vibration 12 stored for toy `t1` on a paired
coordinator. -/
def c4_afterVibration : Coordinator :=
  (send_unified_command pairedCoordinator "t1"
    { vibration := some (some 12) } (.response 200 [])).1

/-- Scenario D, step 2: position 55 applied while vibration 12 is
stored. -/
def c4_afterPosition : Coordinator :=
  (send_unified_command c4_afterVibration "t1"
    { position := some (some 55) } (.response 200 [])).1

/-- C4 counterexample: after storing vibration 12 and then position 55,
a further update passing `position` as `None` does NOT revert the
translated command to `Function Vibrate:12`; the request issued is
still `Position "55"`, because the merge loop ignores a `None` value
for every key except `stroke_range`. -/
theorem C4_counterexample :
    (send_unified_command c4_afterPosition "t1" { position := some none }
        (.response 200 [])).2.2 ≠
      [VendorCommand.function "Vibrate:12" 0 "t1"] ∧
    (send_unified_command c4_afterPosition "t1" { position := some none }
        (.response 200 [])).2.2 = [VendorCommand.position "55" "t1"] := by
  constructor
  · decide
  · rfl

/-- C4 amended: applying position 55 while vibration 12 is stored
yields the `Position "55"` request with the stored vibration retained
at 12 (suppressed, not cleared); but a subsequent update passing
`position` as `None` is ignored entirely — the stored state is
unchanged and the issued request remains `Position "55"` (only
`stroke_range` supports an explicit null-clear). -/
theorem C4_amended_scenario :
    (send_unified_command c4_afterVibration "t1"
        { position := some (some 55) } (.response 200 [])).2.2 =
      [VendorCommand.position "55" "t1"] ∧
    getOrInit c4_afterPosition.toy_settings "t1" =
      { vibration := 12, position := some 55, stroke_range := none,
        thrusting := 0 } ∧
    (send_unified_command c4_afterPosition "t1" { position := some none }
        (.response 200 [])).1 = c4_afterPosition ∧
    (send_unified_command c4_afterPosition "t1" { position := some none }
        (.response 200 [])).2.2 = [VendorCommand.position "55" "t1"] := by
  refine ⟨rfl, rfl, by decide, rfl⟩

end Lovense
